import Mathlib

/-!
Shallow embedding of the VehicleDesign repository's computational core
(aircraft.py, flight_conditions.py, performance_analysis.py,
design_optimizer.py).  Python floats are modelled as real numbers;
Python exceptions, where a claim is about them, are modelled with
`Except String`.  Python dictionaries with a fixed key set (the
optimizer's geom_dict / mass_dict) are modelled as the corresponding
structures together with an update-by-field-name function and the
explicit key lists `geomKeys` / `massKeys`.
-/

/-- Geometry value object, mirroring dataclass AircraftGeometry in aircraft.py. -/
structure AircraftGeometry where
  wing_span : ℝ
  wing_area : ℝ
  wing_chord : ℝ
  aspect_ratio : ℝ
  sweep_angle : ℝ
  dihedral_angle : ℝ
  taper_ratio : ℝ
  thickness_ratio : ℝ
  fuselage_length : ℝ
  fuselage_diameter : ℝ

/-- Mass value object, mirroring dataclass AircraftMass in aircraft.py. -/
structure AircraftMass where
  empty_weight : ℝ
  fuel_capacity : ℝ
  payload_capacity : ℝ
  max_takeoff_weight : ℝ

/-- Aircraft record: name, geometry, mass and the four aerodynamic
coefficients that Python's Aircraft.__init__ stores as instance attributes
(overridable per instance, e.g. the fighter sample). -/
structure Aircraft where
  name : String
  geometry : AircraftGeometry
  mass : AircraftMass
  cd0 : ℝ
  k : ℝ
  cl_max : ℝ
  cl_alpha : ℝ

/-- Aircraft.__init__: derives cd0, k, cl_max, cl_alpha from the geometry
(aircraft.py lines 232-249). -/
noncomputable def mkAircraft (name : String) (geometry : AircraftGeometry)
    (mass : AircraftMass) : Aircraft :=
  { name := name
    geometry := geometry
    mass := mass
    cd0 := 0.025
    k := 1 / (Real.pi * geometry.aspect_ratio * 0.8)
    cl_max := 1.6
    cl_alpha := 2 * Real.pi / (1 + 2 / geometry.aspect_ratio) }

/-- np.radians: degrees to radians. -/
noncomputable def radians (deg : ℝ) : ℝ :=
  deg * Real.pi / 180

/-- Aircraft.calculate_lift_coefficient (aircraft.py lines 251-285):
CL = cl_alpha * radians(aoa), capped above at cl_max via min. -/
noncomputable def calculate_lift_coefficient (ac : Aircraft) (angle_of_attack : ℝ) : ℝ :=
  let alpha_rad := radians angle_of_attack
  let cl := ac.cl_alpha * alpha_rad
  min cl ac.cl_max

/-- Aircraft.calculate_drag_coefficient (aircraft.py lines 287-319):
CD = cd0 + k * CL^2. -/
noncomputable def calculate_drag_coefficient (ac : Aircraft) (lift_coefficient : ℝ) : ℝ :=
  ac.cd0 + ac.k * lift_coefficient ^ 2

/-- Aircraft.calculate_lift_drag_ratio (aircraft.py lines 321-359):
cl / cd if cd > 0 else 0. -/
noncomputable def calculate_lift_drag_ratio (ac : Aircraft) (angle_of_attack : ℝ) : ℝ :=
  let cl := calculate_lift_coefficient ac angle_of_attack
  let cd := calculate_drag_coefficient ac cl
  if 0 < cd then cl / cd else 0

/-- Atmospheric state, mirroring dataclass AtmosphericConditions in
flight_conditions.py. -/
structure AtmosphericConditions where
  altitude : ℝ
  temperature : ℝ
  pressure : ℝ
  density : ℝ
  speed_of_sound : ℝ

/-- AtmosphericConditions.standard_atmosphere (flight_conditions.py lines
22-54): ISA model with a troposphere branch (altitude <= 11000) and an
isothermal stratosphere branch. -/
noncomputable def standard_atmosphere (altitude : ℝ) : AtmosphericConditions :=
  let T0 : ℝ := 288.15
  let P0 : ℝ := 101325
  let lapse_rate : ℝ := -0.0065
  let tp : ℝ × ℝ :=
    if altitude ≤ 11000 then
      let temperature := T0 + lapse_rate * altitude
      (temperature, P0 * (temperature / T0) ^ (-9.80665 / (287.0 * lapse_rate)))
    else
      let t11 := T0 + lapse_rate * 11000
      let p11 := P0 * (t11 / T0) ^ (-9.80665 / (287.0 * lapse_rate))
      (t11, p11 * Real.exp (-9.80665 * (altitude - 11000) / (287.0 * t11)))
  let temperature := tp.1
  let pressure := tp.2
  let density := pressure / (287.0 * temperature)
  let speed_of_sound := Real.sqrt (1.4 * 287.0 * temperature)
  ⟨altitude, temperature, pressure, density, speed_of_sound⟩

/-- The 11 km boundary temperature computed in the stratosphere branch
(flight_conditions.py line 46). -/
noncomputable def temp_11km : ℝ :=
  288.15 + (-0.0065) * 11000

/-- The 11 km boundary pressure computed in the stratosphere branch
(flight_conditions.py line 47). -/
noncomputable def pressure_11km : ℝ :=
  101325 * (temp_11km / 288.15) ^ ((-9.80665 : ℝ) / (287.0 * (-0.0065)))

/-- The stratosphere-branch pressure formula (flight_conditions.py line 49),
as a standalone function of altitude. -/
noncomputable def stratoPressure (altitude : ℝ) : ℝ :=
  pressure_11km * Real.exp (-9.80665 * (altitude - 11000) / (287.0 * temp_11km))

/-- np.linspace(a, b, n): n evenly spaced samples from a to b inclusive. -/
noncomputable def linspace (a b : ℝ) (n : ℕ) : List ℝ :=
  (List.range n).map fun i : ℕ => a + (b - a) * (i : ℝ) / ((n : ℝ) - 1)

/-- FlightEnvelope.calculate_stall_speed (flight_conditions.py lines 98-116). -/
noncomputable def calculate_stall_speed (ac : Aircraft) (altitude weight load_factor : ℝ) : ℝ :=
  let atm := standard_atmosphere altitude
  let weight_force := weight * 9.81
  Real.sqrt (2 * weight_force * load_factor /
    (atm.density * ac.geometry.wing_area * ac.cl_max))

/-- FlightEnvelope.calculate_service_ceiling (flight_conditions.py lines
118-139): empirical piecewise-linear function of wing loading with a
1000 m floor.  The min_climb_rate parameter is accepted but never read,
exactly as in the source. -/
noncomputable def calculate_service_ceiling (ac : Aircraft) (weight min_climb_rate : ℝ) : ℝ :=
  let wing_loading := weight * 9.81 / ac.geometry.wing_area
  let ceiling :=
    if wing_loading < 1000 then 4000 + (1000 - wing_loading) * 10
    else 4000 + (5000 - wing_loading) * 2
  max ceiling 1000

/-- Modelled from the spec: serviceCeiling as worded in spec section 4.3,
a piecewise-linear function of the wing loading WL with a floor of 1000 m. -/
noncomputable def serviceCeilingSpec (WL : ℝ) : ℝ :=
  max (if WL < 1000 then 4000 + (1000 - WL) * 10 else 4000 + (5000 - WL) * 2) 1000

/-- FlightEnvelope.generate_v_n_diagram (flight_conditions.py lines 141-189):
positive stall curve (only sampled speeds >= v_stall are emitted), the
structural limit line, and the negative side back to (0, 0).  The Python
loop appends to the two parallel lists in lockstep; that is modelled as a
filter for the velocities and a map over the same filtered list for the
load factors. -/
noncomputable def generate_v_n_diagram (ac : Aircraft) (altitude weight : ℝ) :
    List ℝ × List ℝ :=
  let atm := standard_atmosphere altitude
  let v_stall := calculate_stall_speed ac altitude weight 1.0
  let v_a := v_stall * Real.sqrt 6.0
  let v_d := v_a * 1.4
  let n_pos_limit : ℝ := 2.5
  let n_neg_limit : ℝ := -1.0
  let stall_vels := (linspace 0 v_a 50).filter fun v => decide (v_stall ≤ v)
  let stall_ns := stall_vels.map fun v =>
    min (0.5 * atm.density * v ^ 2 * ac.geometry.wing_area * ac.cl_max / (weight * 9.81))
      n_pos_limit
  let v_stall_neg := v_stall * Real.sqrt |n_neg_limit|
  ((stall_vels ++ [v_a, v_d]) ++ [v_d, v_stall_neg, 0],
   (stall_ns ++ [n_pos_limit, n_pos_limit]) ++ [n_neg_limit, n_neg_limit, 0])

/-- One step of the brute-force L/D scan in
PerformanceAnalyzer.find_optimal_angle_of_attack: the running state is
(best_ld, best_angle), initialised to (0, 0), updated when the sampled
ratio strictly exceeds best_ld. -/
noncomputable def aoaStep (ac : Aircraft) (best : ℝ × ℝ) (angle : ℝ) : ℝ × ℝ :=
  if best.1 < calculate_lift_drag_ratio ac angle then
    (calculate_lift_drag_ratio ac angle, angle)
  else best

/-- PerformanceAnalyzer.find_optimal_angle_of_attack (performance_analysis.py
lines 89-106): 100-point scan of aoa in [-5, 20]. -/
noncomputable def find_optimal_angle_of_attack (ac : Aircraft) : ℝ :=
  let angles := linspace (-5) 20 100
  (angles.foldl (aoaStep ac) (0, 0)).2

/-- The L/D value that calculate_range recomputes at the scanned optimal
angle of attack (performance_analysis.py lines 45-48); note the recompute
bypasses the cd > 0 guard of calculate_lift_drag_ratio. -/
noncomputable def cruiseLD (ac : Aircraft) : ℝ :=
  let best_aoa := find_optimal_angle_of_attack ac
  let cl := calculate_lift_coefficient ac best_aoa
  let cd := calculate_drag_coefficient ac cl
  cl / cd

/-- PerformanceAnalyzer.calculate_range (performance_analysis.py lines
23-52): Breguet range equation.  The atmospheric state is computed for the
cruise altitude, exactly as in the source, and never used afterwards. -/
noncomputable def calculate_range (ac : Aircraft)
    (cruise_altitude cruise_speed fuel_weight sfc : ℝ) : ℝ :=
  let w_initial := ac.mass.max_takeoff_weight * 9.81
  let w_final := w_initial - fuel_weight * 9.81
  let atm := standard_atmosphere cruise_altitude
  let ld_ratio := cruiseLD ac
  let range_m := cruise_speed / sfc * ld_ratio * Real.log (w_initial / w_final)
  range_m / 1000

/-- Key list of the optimizer's geom_dict (design_optimizer.py lines
199-210). -/
def geomKeys : List String :=
  ["wing_span", "wing_area", "wing_chord", "aspect_ratio", "sweep_angle",
   "dihedral_angle", "taper_ratio", "thickness_ratio", "fuselage_length",
   "fuselage_diameter"]

/-- Key list of the optimizer's mass_dict (design_optimizer.py lines
212-217). -/
def massKeys : List String :=
  ["empty_weight", "fuel_capacity", "payload_capacity", "max_takeoff_weight"]

/-- geom_dict[name] = v for the fixed key set: update one geometry field by
its Python dictionary key. -/
def setGeom (g : AircraftGeometry) : String → ℝ → AircraftGeometry
  | "wing_span", v => { g with wing_span := v }
  | "wing_area", v => { g with wing_area := v }
  | "wing_chord", v => { g with wing_chord := v }
  | "aspect_ratio", v => { g with aspect_ratio := v }
  | "sweep_angle", v => { g with sweep_angle := v }
  | "dihedral_angle", v => { g with dihedral_angle := v }
  | "taper_ratio", v => { g with taper_ratio := v }
  | "thickness_ratio", v => { g with thickness_ratio := v }
  | "fuselage_length", v => { g with fuselage_length := v }
  | "fuselage_diameter", v => { g with fuselage_diameter := v }
  | _, _ => g

/-- mass_dict[name] = v for the fixed key set. -/
def setMass (m : AircraftMass) : String → ℝ → AircraftMass
  | "empty_weight", v => { m with empty_weight := v }
  | "fuel_capacity", v => { m with fuel_capacity := v }
  | "payload_capacity", v => { m with payload_capacity := v }
  | "max_takeoff_weight", v => { m with max_takeoff_weight := v }
  | _, _ => m

/-- Read a geometry or mass field by its Python dictionary key. -/
def fieldVal (g : AircraftGeometry) (m : AircraftMass) : String → ℝ
  | "wing_span" => g.wing_span
  | "wing_area" => g.wing_area
  | "wing_chord" => g.wing_chord
  | "aspect_ratio" => g.aspect_ratio
  | "sweep_angle" => g.sweep_angle
  | "dihedral_angle" => g.dihedral_angle
  | "taper_ratio" => g.taper_ratio
  | "thickness_ratio" => g.thickness_ratio
  | "fuselage_length" => g.fuselage_length
  | "fuselage_diameter" => g.fuselage_diameter
  | "empty_weight" => m.empty_weight
  | "fuel_capacity" => m.fuel_capacity
  | "payload_capacity" => m.payload_capacity
  | "max_takeoff_weight" => m.max_takeoff_weight
  | _ => 0

/-- The per-variable update of the optimizer's mapping loop
(design_optimizer.py lines 220-224): if var_name in geom_dict update the
geometry entry, elif var_name in mass_dict update the mass entry, else
silently ignore. -/
def updateVar (gm : AircraftGeometry × AircraftMass) (p : String × ℝ) :
    AircraftGeometry × AircraftMass :=
  if p.1 ∈ geomKeys then (setGeom gm.1 p.1 p.2, gm.2)
  else if p.1 ∈ massKeys then (gm.1, setMass gm.2 p.1 p.2)
  else gm

/-- DesignOptimizer.create_aircraft_from_variables (design_optimizer.py
lines 180-234).  The consistency step tests membership of 'wing_span' and
'wing_area' in geom_dict itself (not in the design-variable names), which
is modelled by the corresponding test on the dict's fixed key list. -/
noncomputable def create_aircraft_from_variables (var_names : List String)
    (x : List ℝ) (base : Aircraft) : Aircraft :=
  let gm := (var_names.zip x).foldl updateVar (base.geometry, base.mass)
  let g := gm.1
  let g2 :=
    if "wing_span" ∈ geomKeys ∧ "wing_area" ∈ geomKeys then
      { g with aspect_ratio := g.wing_span ^ 2 / g.wing_area,
               wing_chord := g.wing_area / g.wing_span }
    else g
  mkAircraft (base.name ++ "_optimized") g2 gm.2

/-- A DesignObjective together with its weight; evaluate may raise, which
is modelled with Except (design_optimizer.py lines 21-89). -/
structure WeightedObjective where
  name : String
  weight : ℝ
  evaluate : Aircraft → Except String ℝ

/-- A DesignConstraint: evaluate returns 0 when satisfied and a positive
violation magnitude otherwise, and may raise (design_optimizer.py lines
92-148). -/
structure DesignConstraint where
  name : String
  evaluate : Aircraft → Except String ℝ

/-- The weighted-objective accumulation loop of
DesignOptimizer.objective_function (design_optimizer.py lines 251-253). -/
noncomputable def totalObjective (ac : Aircraft) (objs : List WeightedObjective) :
    Except String ℝ :=
  objs.foldlM (fun acc obj => do
    let v ← obj.evaluate ac
    pure (acc + obj.weight * v)) 0

/-- The quadratic-penalty accumulation loop of
DesignOptimizer.objective_function (design_optimizer.py lines 256-259). -/
noncomputable def totalPenalty (ac : Aircraft) (cons : List DesignConstraint) :
    Except String ℝ :=
  cons.foldlM (fun acc c => do
    let violation ← c.evaluate ac
    pure (acc + 1000 * violation ^ 2)) 0

/-- DesignOptimizer.objective_function (design_optimizer.py lines 236-265):
the whole candidate construction and evaluation sits in a try block whose
except clause returns the fixed penalty 1e6.  The candidate argument is the
Except-valued outcome of create_aircraft_from_variables (Python's
construction can raise, e.g. ZeroDivisionError on degenerate geometry). -/
noncomputable def objective_function (objs : List WeightedObjective)
    (cons : List DesignConstraint) (candidate : Except String Aircraft) : ℝ :=
  match (do
    let aircraft ← candidate
    let total ← totalObjective aircraft objs
    let penalty ← totalPenalty aircraft cons
    pure (total + penalty) : Except String ℝ) with
  | Except.ok v => v
  | Except.error _ => 1000000

/-- The scipy result record consumed by DesignOptimizer.optimize
(success flag, solution vector x, objective value fun). -/
structure ScipyResult where
  success : Bool
  x : List ℝ
  fval : ℝ

/-- DesignOptimizer state: objectives, constraints and the ordered
design-variable mapping name -> (min, max) (design_optimizer.py lines
151-178). -/
structure DesignOptimizer where
  objectives : List WeightedObjective
  constraints : List DesignConstraint
  design_variables : List (String × ℝ × ℝ)

/-- self.bounds = list(variables.values()). -/
def DesignOptimizer.bounds (opt : DesignOptimizer) : List (ℝ × ℝ) :=
  opt.design_variables.map Prod.snd

/-- The result dictionary returned by DesignOptimizer.optimize
(design_optimizer.py lines 313-321); the per-objective and per-constraint
final evaluations are kept as Except-valued data. -/
structure OptimizationOutcome where
  success : Bool
  optimized_aircraft : Aircraft
  design_variables : List (String × ℝ)
  objective_value : ℝ
  objectives : List (String × Except String ℝ)
  constraints : List (String × Except String ℝ)

/-- DesignOptimizer.optimize (design_optimizer.py lines 267-321).  The
scipy search (differential_evolution or minimize) is abstracted as the
search parameter, which receives the penalty-augmented objective closure
and the bounds.  The guard raising ValueError("No design variables
specified") is modelled as Except.error. -/
noncomputable def DesignOptimizer.optimize (opt : DesignOptimizer) (base : Aircraft)
    (search : (List ℝ → ℝ) → List (ℝ × ℝ) → ScipyResult) :
    Except String OptimizationOutcome :=
  if opt.design_variables.isEmpty then
    Except.error "No design variables specified"
  else
    let var_names := opt.design_variables.map Prod.fst
    let result := search
      (fun x => objective_function opt.objectives opt.constraints
        (Except.ok (create_aircraft_from_variables var_names x base)))
      opt.bounds
    let optimized_aircraft := create_aircraft_from_variables var_names result.x base
    Except.ok
      { success := result.success
        optimized_aircraft := optimized_aircraft
        design_variables := var_names.zip result.x
        objective_value := result.fval
        objectives := opt.objectives.map fun o => (o.name, o.evaluate optimized_aircraft)
        constraints := opt.constraints.map fun c => (c.name, c.evaluate optimized_aircraft) }

/-- The commercial-airliner sample (aircraft.py lines 430-450). -/
noncomputable def airliner : Aircraft :=
  mkAircraft "Commercial Airliner"
    { wing_span := 35.8, wing_area := 125.0, wing_chord := 3.5,
      aspect_ratio := 10.2, sweep_angle := 25.0, dihedral_angle := 6.0,
      taper_ratio := 0.3, thickness_ratio := 0.12, fuselage_length := 39.5,
      fuselage_diameter := 3.8 }
    { empty_weight := 41000, fuel_capacity := 20000, payload_capacity := 18000,
      max_takeoff_weight := 79000 }

/-- A base aircraft whose stored aspect_ratio (7) deliberately differs from
wing_span^2 / wing_area (10^2 / 20 = 5), to probe the optimizer's
variable-mapping frame behaviour. -/
noncomputable def baseSeven : Aircraft :=
  mkAircraft "Base"
    { wing_span := 10, wing_area := 20, wing_chord := 1.5,
      aspect_ratio := 7, sweep_angle := 25, dihedral_angle := 6,
      taper_ratio := 0.3, thickness_ratio := 0.12, fuselage_length := 39.5,
      fuselage_diameter := 3.8 }
    { empty_weight := 1000, fuel_capacity := 200, payload_capacity := 300,
      max_takeoff_weight := 2000 }

/-- A small concrete aircraft record with unit coefficients, used to
instantiate hypotheses at concrete inputs. -/
noncomputable def unitAircraft : Aircraft :=
  { name := "Unit"
    geometry :=
      { wing_span := 1, wing_area := 1, wing_chord := 1, aspect_ratio := 1,
        sweep_angle := 1, dihedral_angle := 1, taper_ratio := 1,
        thickness_ratio := 1, fuselage_length := 1, fuselage_diameter := 1 }
    mass :=
      { empty_weight := 1, fuel_capacity := 1, payload_capacity := 1,
        max_takeoff_weight := 10000 }
    cd0 := 1
    k := 1
    cl_max := 1
    cl_alpha := 1 }

/-- A concrete aircraft with cl_alpha = 5, for instantiating the stall
clipping property. -/
noncomputable def steepAircraft : Aircraft :=
  { unitAircraft with name := "Steep", cl_max := 1.6, cl_alpha := 5 }

/-- An exception-free weighted objective with constant value v, for
exercising the optimizer's combined objective on pure inputs. -/
noncomputable def pureObjective (w v : ℝ) : WeightedObjective :=
  { name := "objective", weight := w, evaluate := fun _ => Except.ok v }

/-- An exception-free constraint with constant violation v. -/
noncomputable def pureConstraint (v : ℝ) : DesignConstraint :=
  { name := "constraint", evaluate := fun _ => Except.ok v }

/-- A weighted objective whose evaluation always raises. -/
noncomputable def errObjective : WeightedObjective :=
  { name := "bad objective", weight := 2, evaluate := fun _ => Except.error "bad" }

/-- A constraint whose evaluation always raises. -/
noncomputable def errConstraint : DesignConstraint :=
  { name := "bad constraint", evaluate := fun _ => Except.error "bad" }

/-- A constraint that is currently satisfied (violation 0). -/
noncomputable def zeroConstraint : DesignConstraint :=
  { name := "zero constraint", evaluate := fun _ => Except.ok 0 }

/-- An optimizer with no design variables set. -/
noncomputable def emptyOptimizer : DesignOptimizer :=
  { objectives := [], constraints := [], design_variables := [] }

/-- An optimizer with a single design variable. -/
noncomputable def oneVarOptimizer : DesignOptimizer :=
  { objectives := [], constraints := [], design_variables := [("wing_span", 1, 2)] }

/-- A stand-in for the scipy search driver returning a fixed result. -/
noncomputable def constSearch : (List ℝ → ℝ) → List (ℝ × ℝ) → ScipyResult :=
  fun _ _ => { success := true, x := [1.5], fval := 0 }

/-! ## Theorems -/

/-- C8: calculate_service_ceiling equals the piecewise-linear function of
the wing loading WL = weight*9.81/wing_area described in the spec, with
the result floored at 1000 m, so the returned ceiling is always at least
1000. -/
theorem service_ceiling_piecewise (ac : Aircraft) (weight r : ℝ) :
    calculate_service_ceiling ac weight r
      = serviceCeilingSpec (weight * 9.81 / ac.geometry.wing_area) ∧
    1000 ≤ calculate_service_ceiling ac weight r :=
  ⟨rfl, le_max_right _ _⟩

/-- C9: calculate_service_ceiling ignores its min_climb_rate parameter
entirely: any two climb-rate arguments give the same ceiling. -/
theorem service_ceiling_ignores_climb_rate (ac : Aircraft) (weight r1 r2 : ℝ) :
    calculate_service_ceiling ac weight r1 = calculate_service_ceiling ac weight r2 :=
  rfl

/-- C10: calculate_range does not depend on its cruise_altitude argument:
the atmospheric state computed for the altitude is never used, and the
angle-of-attack scan is altitude-independent. -/
theorem range_altitude_independent (ac : Aircraft) (a1 a2 speed fuel sfc : ℝ) :
    calculate_range ac a1 speed fuel sfc = calculate_range ac a2 speed fuel sfc :=
  rfl

/-- C6: the troposphere branch of standard_atmosphere evaluated at the
11000 m boundary yields exactly the 11 km boundary temperature and
pressure that the stratosphere branch is based on, and the stratosphere
pressure formula evaluated at 11000 m returns that same boundary pressure,
so temperature and pressure are continuous across the branch switch. -/
theorem atmosphere_branch_continuity :
    (standard_atmosphere 11000).temperature = temp_11km ∧
    (standard_atmosphere 11000).pressure = pressure_11km ∧
    stratoPressure 11000 = pressure_11km := by
  refine ⟨?_, ?_, ?_⟩
  · simp only [standard_atmosphere, temp_11km]
    rw [if_pos (le_refl (11000 : ℝ))]
  · simp only [standard_atmosphere, pressure_11km, temp_11km]
    rw [if_pos (le_refl (11000 : ℝ))]
  · simp only [stratoPressure]
    norm_num

/-- C3: DesignOptimizer.optimize raises the "No design variables
specified" error exactly when the design-variable mapping is empty, and
produces a result record exactly when it is non-empty. -/
theorem optimize_requires_design_variables (opt : DesignOptimizer) (base : Aircraft)
    (search : (List ℝ → ℝ) → List (ℝ × ℝ) → ScipyResult) :
    (opt.optimize base search = Except.error "No design variables specified"
      ↔ opt.design_variables = []) ∧
    ((∃ out, opt.optimize base search = Except.ok out) ↔ opt.design_variables ≠ []) := by
  unfold DesignOptimizer.optimize
  rcases h : opt.design_variables with _ | ⟨p, t⟩
  · simp [h]
  · simp [h]

/-- C5: calculate_lift_coefficient is cl_alpha * radians(aoa) clipped
above at cl_max (exactly cl_max whenever the linear value exceeds it);
the constructed lift-curve slope is positive for positive aspect ratio;
and there is no lower clipping, so for a positive slope the result is
unbounded below at negative angles of attack. -/
theorem lift_coefficient_stall_clipping (ac : Aircraft) (aoa B : ℝ) :
    (ac.cl_max < ac.cl_alpha * radians aoa →
      calculate_lift_coefficient ac aoa = ac.cl_max) ∧
    calculate_lift_coefficient ac aoa = min (ac.cl_alpha * radians aoa) ac.cl_max ∧
    (∀ (g : AircraftGeometry) (m : AircraftMass) (nm : String),
      0 < g.aspect_ratio → 0 < (mkAircraft nm g m).cl_alpha) ∧
    (0 < ac.cl_alpha → ∃ a, a < 0 ∧
      calculate_lift_coefficient ac a = ac.cl_alpha * radians a ∧
      calculate_lift_coefficient ac a < B) := by
  refine ⟨fun h => min_eq_right h.le, rfl, ?_, ?_⟩
  · intro g m nm hg
    show 0 < 2 * Real.pi / (1 + 2 / g.aspect_ratio)
    have h1 : 0 < 2 / g.aspect_ratio := by positivity
    have h2 : 0 < 1 + 2 / g.aspect_ratio := by linarith
    exact div_pos (by positivity) h2
  · intro hpos
    have hpi : (0 : ℝ) < Real.pi := Real.pi_pos
    set c : ℝ := min (min B ac.cl_max) 0 - 1 with hc
    have hcneg : c < 0 := by
      have := min_le_right (min B ac.cl_max) 0
      simp only [hc]; linarith
    have hcB : c < B := by
      have h3 := min_le_left (min B ac.cl_max) 0
      have h4 := min_le_left B ac.cl_max
      simp only [hc]; linarith
    have hcM : c < ac.cl_max := by
      have h3 := min_le_left (min B ac.cl_max) 0
      have h4 := min_le_right B ac.cl_max
      simp only [hc]; linarith
    refine ⟨c * 180 / (Real.pi * ac.cl_alpha), ?_, ?_, ?_⟩
    · apply div_neg_of_neg_of_pos
      · linarith
      · positivity
    · show min (ac.cl_alpha * radians (c * 180 / (Real.pi * ac.cl_alpha))) ac.cl_max = _
      have hval : ac.cl_alpha * radians (c * 180 / (Real.pi * ac.cl_alpha)) = c := by
        unfold radians
        field_simp
        ring
      rw [hval, min_eq_left hcM.le]
    · show min (ac.cl_alpha * radians (c * 180 / (Real.pi * ac.cl_alpha))) ac.cl_max < B
      have hval : ac.cl_alpha * radians (c * 180 / (Real.pi * ac.cl_alpha)) = c := by
        unfold radians
        field_simp
        ring
      rw [hval, min_eq_left hcM.le]
      exact hcB

/-- C5 witness: the clipping and unboundedness hypotheses instantiated on
the concrete steepAircraft (cl_alpha = 5, cl_max = 1.6) at aoa = 90 and
bound B = -10. -/
theorem lift_coefficient_stall_clipping_witness :
    calculate_lift_coefficient steepAircraft 90 = steepAircraft.cl_max ∧
    (∃ a, a < 0 ∧
      calculate_lift_coefficient steepAircraft a
        = steepAircraft.cl_alpha * radians a ∧
      calculate_lift_coefficient steepAircraft a < -10) := by
  have hclip : steepAircraft.cl_max < steepAircraft.cl_alpha * radians 90 := by
    have hpi := Real.pi_gt_three
    simp only [steepAircraft, unitAircraft, radians]
    nlinarith
  have hslope : (0 : ℝ) < steepAircraft.cl_alpha := by
    simp only [steepAircraft, unitAircraft]
    norm_num
  exact ⟨(lift_coefficient_stall_clipping steepAircraft 90 (-10)).1 hclip,
    (lift_coefficient_stall_clipping steepAircraft 90 (-10)).2.2.2 hslope⟩

/-- A list extended by three trailing elements ends in its last element. -/
lemma append_triple_last (l : List ℝ) (a b c : ℝ) :
    ∃ init, l ++ [a, b, c] = init ++ [c] :=
  ⟨l ++ [a, b], by simp⟩

/-- The first velocity emitted by generate_v_n_diagram is at least the
stall speed: the positive stall curve only emits sampled speeds that are
at least v_stall, and when no sample qualifies the list starts at the
maneuvering speed v_a = v_stall * sqrt 6 >= v_stall. -/
lemma vn_head_ge (ac : Aircraft) (altitude weight : ℝ) :
    ∃ h, (generate_v_n_diagram ac altitude weight).1.head? = some h ∧
      calculate_stall_speed ac altitude weight 1.0 ≤ h := by
  have hvs0 : 0 ≤ calculate_stall_speed ac altitude weight 1.0 := by
    unfold calculate_stall_speed
    exact Real.sqrt_nonneg _
  simp only [generate_v_n_diagram]
  rcases hfil : (linspace 0 (calculate_stall_speed ac altitude weight 1.0 * Real.sqrt 6.0) 50).filter
      (fun v => decide (calculate_stall_speed ac altitude weight 1.0 ≤ v)) with _ | ⟨x, xs⟩
  · refine ⟨calculate_stall_speed ac altitude weight 1.0 * Real.sqrt 6.0, ?_, ?_⟩
    · simp
    · have h6 : (1 : ℝ) ≤ Real.sqrt 6.0 := by
        rw [show (1 : ℝ) = Real.sqrt 1 from Real.sqrt_one.symm]
        exact Real.sqrt_le_sqrt (by norm_num)
      calc calculate_stall_speed ac altitude weight 1.0
          = calculate_stall_speed ac altitude weight 1.0 * 1 := (mul_one _).symm
        _ ≤ calculate_stall_speed ac altitude weight 1.0 * Real.sqrt 6.0 :=
            mul_le_mul_of_nonneg_left h6 hvs0
  · refine ⟨x, ?_, ?_⟩
    · simp
    · have hx : x ∈ (linspace 0 (calculate_stall_speed ac altitude weight 1.0 * Real.sqrt 6.0) 50).filter
          (fun v => decide (calculate_stall_speed ac altitude weight 1.0 ≤ v)) := by
        rw [hfil]
        exact List.mem_cons_self x xs
      have := (List.mem_filter.1 hx).2
      exact of_decide_eq_true this

/-- C1 (amended): the two arrays returned by generate_v_n_diagram are
parallel (equal length), the last velocity entry is 0 and the last
load-factor entry is 0, but the first velocity entry is at least the stall
speed — hence positive, not 0, whenever the stall speed is positive — so
the polyline is closed only at its end, not at its start. -/
theorem vn_diagram_endpoints (ac : Aircraft) (altitude weight : ℝ) :
    (generate_v_n_diagram ac altitude weight).1.length
      = (generate_v_n_diagram ac altitude weight).2.length ∧
    (∃ init, (generate_v_n_diagram ac altitude weight).1 = init ++ [0]) ∧
    (∃ init2, (generate_v_n_diagram ac altitude weight).2 = init2 ++ [0]) ∧
    ∃ h, (generate_v_n_diagram ac altitude weight).1.head? = some h ∧
      calculate_stall_speed ac altitude weight 1.0 ≤ h := by
  refine ⟨?_, ?_, ?_, vn_head_ge ac altitude weight⟩
  · simp [generate_v_n_diagram]
  · simp only [generate_v_n_diagram]
    exact append_triple_last _ _ _ _
  · simp only [generate_v_n_diagram]
    exact append_triple_last _ _ _ _

/-- The ISA density at sea level is the positive rational
101325 / (287 * 288.15). -/
lemma density_sea_level : (standard_atmosphere 0).density = 101325 / (287.0 * 288.15) := by
  simp only [standard_atmosphere]
  rw [if_pos (by norm_num : (0 : ℝ) ≤ 11000)]
  norm_num [Real.one_rpow]

/-- The stall speed of the sample airliner at sea level and MTOW is
strictly positive. -/
lemma stall_speed_airliner_pos : 0 < calculate_stall_speed airliner 0 79000 1.0 := by
  unfold calculate_stall_speed
  apply Real.sqrt_pos.2
  rw [density_sea_level,
    show airliner.geometry.wing_area = 125.0 from rfl,
    show airliner.cl_max = 1.6 from rfl]
  norm_num

/-- C1 counterexample: for the sample commercial airliner at sea level and
weight 79000 kg, the first velocity entry of the V-n diagram is not 0, so
the returned polyline is not closed as claimed. -/
theorem vn_diagram_first_velocity_not_zero :
    (generate_v_n_diagram airliner 0 79000).1.head? ≠ some 0 := by
  obtain ⟨h, hhead, hge⟩ := vn_head_ge airliner 0 79000
  rw [hhead]
  simp only [ne_eq, Option.some.injEq]
  intro h0
  have hpos := stall_speed_airliner_pos
  rw [h0] at hge
  linarith

/-- Binding an error propagates the error. -/
lemma error_bind_except {α β : Type} (e : String) (f : α → Except String β) :
    (Except.error e : Except String α) >>= f = Except.error e :=
  rfl

/-- Binding an ok value applies the continuation. -/
lemma ok_bind_except {α β : Type} (v : α) (f : α → Except String β) :
    (Except.ok v : Except String α) >>= f = f v :=
  rfl

/-- If some objective in the list raises, the weighted-objective
accumulation fold raises, whatever the accumulator. -/
lemma foldObj_error (ac : Aircraft) :
    ∀ (l : List WeightedObjective) (acc : ℝ),
      (∃ o ∈ l, ∃ m, o.evaluate ac = Except.error m) →
      ∃ m2, (l.foldlM (fun acc obj => do
          let v ← obj.evaluate ac
          pure (acc + obj.weight * v)) acc : Except String ℝ) = Except.error m2 := by
  intro l
  induction l with
  | nil =>
    intro acc h
    rcases h with ⟨o, ho, _⟩
    exact absurd ho (List.not_mem_nil o)
  | cons b t ih =>
    intro acc h
    rcases h with ⟨o, ho, m, hm⟩
    rcases hb : b.evaluate ac with e | v
    · refine ⟨e, ?_⟩
      show (b.evaluate ac >>= fun v => pure (acc + b.weight * v)) >>= _ = _
      rw [hb]
      rfl
    · rcases List.mem_cons.1 ho with rfl | hot
      · rw [hb] at hm
        cases hm
      · obtain ⟨m2, h2⟩ := ih (acc + b.weight * v) ⟨o, hot, m, hm⟩
        refine ⟨m2, ?_⟩
        show (b.evaluate ac >>= fun v => pure (acc + b.weight * v)) >>= _ = _
        rw [hb]
        exact h2

/-- If some constraint in the list raises, the penalty accumulation fold
raises, whatever the accumulator. -/
lemma foldCon_error (ac : Aircraft) :
    ∀ (l : List DesignConstraint) (acc : ℝ),
      (∃ c ∈ l, ∃ m, c.evaluate ac = Except.error m) →
      ∃ m2, (l.foldlM (fun acc c => do
          let violation ← c.evaluate ac
          pure (acc + 1000 * violation ^ 2)) acc : Except String ℝ) = Except.error m2 := by
  intro l
  induction l with
  | nil =>
    intro acc h
    rcases h with ⟨c, hc, _⟩
    exact absurd hc (List.not_mem_nil c)
  | cons b t ih =>
    intro acc h
    rcases h with ⟨c, hc, m, hm⟩
    rcases hb : b.evaluate ac with e | v
    · refine ⟨e, ?_⟩
      show (b.evaluate ac >>= fun v => pure (acc + 1000 * v ^ 2)) >>= _ = _
      rw [hb]
      rfl
    · rcases List.mem_cons.1 hc with rfl | hct
      · rw [hb] at hm
        cases hm
      · obtain ⟨m2, h2⟩ := ih (acc + 1000 * v ^ 2) ⟨c, hct, m, hm⟩
        refine ⟨m2, ?_⟩
        show (b.evaluate ac >>= fun v => pure (acc + 1000 * v ^ 2)) >>= _ = _
        rw [hb]
        exact h2

/-- The weighted-objective fold over exception-free objectives computes
the plain weighted sum, shifted by the accumulator. -/
lemma foldObj_pure (ac : Aircraft) :
    ∀ (l : List (ℝ × ℝ)) (acc : ℝ),
      ((l.map fun p => pureObjective p.1 p.2).foldlM
        (fun acc obj => do
          let v ← obj.evaluate ac
          pure (acc + obj.weight * v)) acc : Except String ℝ)
      = Except.ok (acc + (l.map fun p => p.1 * p.2).sum) := by
  intro l
  induction l with
  | nil =>
    intro acc
    simp only [List.map_nil, List.sum_nil, add_zero]
    rfl
  | cons b t ih =>
    intro acc
    show ((t.map fun p => pureObjective p.1 p.2).foldlM
      (fun acc obj => do
        let v ← obj.evaluate ac
        pure (acc + obj.weight * v)) (acc + b.1 * b.2) : Except String ℝ) = _
    rw [ih (acc + b.1 * b.2)]
    exact congrArg Except.ok (by rw [List.map_cons, List.sum_cons]; ring)

/-- The penalty fold over exception-free constraints computes the plain
quadratic penalty sum, shifted by the accumulator. -/
lemma foldCon_pure (ac : Aircraft) :
    ∀ (l : List ℝ) (acc : ℝ),
      ((l.map fun v => pureConstraint v).foldlM
        (fun acc c => do
          let violation ← c.evaluate ac
          pure (acc + 1000 * violation ^ 2)) acc : Except String ℝ)
      = Except.ok (acc + (l.map fun v => 1000 * v ^ 2).sum) := by
  intro l
  induction l with
  | nil =>
    intro acc
    simp only [List.map_nil, List.sum_nil, add_zero]
    rfl
  | cons b t ih =>
    intro acc
    show ((t.map fun v => pureConstraint v).foldlM
      (fun acc c => do
        let violation ← c.evaluate ac
        pure (acc + 1000 * violation ^ 2)) (acc + 1000 * b ^ 2) : Except String ℝ) = _
    rw [ih (acc + 1000 * b ^ 2)]
    exact congrArg Except.ok (by rw [List.map_cons, List.sum_cons]; ring)

/-- Prepending a constraint with zero violation leaves the penalty fold
unchanged: its term contributes 1000 * 0 ^ 2 = 0. -/
lemma totalPenalty_cons_zero (ac : Aircraft) (cons : List DesignConstraint)
    (c0 : DesignConstraint) (h0 : c0.evaluate ac = Except.ok 0) :
    totalPenalty ac (c0 :: cons) = totalPenalty ac cons := by
  unfold totalPenalty
  show (c0.evaluate ac >>= fun violation => pure ((0 : ℝ) + 1000 * violation ^ 2)) >>=
      (fun acc => (cons.foldlM (fun acc c => do
        let violation ← c.evaluate ac
        pure (acc + 1000 * violation ^ 2)) acc : Except String ℝ)) = _
  rw [h0, ok_bind_except]
  show (cons.foldlM (fun acc c => do
      let violation ← c.evaluate ac
      pure (acc + 1000 * violation ^ 2)) ((0 : ℝ) + 1000 * (0 : ℝ) ^ 2) : Except String ℝ) = _
  norm_num

/-- C4: the combined objective function never propagates an exception.  A
failed candidate construction yields the fixed penalty 1e6; an exception
in any objective or constraint evaluation yields 1e6; on exception-free
evaluations the result is the weighted objective sum plus the quadratic
penalty sum 1000 * violation^2 per constraint; and a constraint with zero
violation contributes exactly 0 to the combined objective. -/
theorem objective_function_penalty_spec (objs : List WeightedObjective)
    (cons : List DesignConstraint) (ac : Aircraft) (e : String) (c0 : DesignConstraint) :
    objective_function objs cons (Except.error e) = 1000000 ∧
    ((∃ o ∈ objs, ∃ m, o.evaluate ac = Except.error m) →
      objective_function objs cons (Except.ok ac) = 1000000) ∧
    ((∃ c ∈ cons, ∃ m, c.evaluate ac = Except.error m) →
      objective_function objs cons (Except.ok ac) = 1000000) ∧
    (∀ (objsP : List (ℝ × ℝ)) (consP : List ℝ),
      objective_function (objsP.map fun p => pureObjective p.1 p.2)
        (consP.map fun v => pureConstraint v) (Except.ok ac)
      = (objsP.map fun p => p.1 * p.2).sum + (consP.map fun v => 1000 * v ^ 2).sum) ∧
    (c0.evaluate ac = Except.ok 0 →
      objective_function objs (c0 :: cons) (Except.ok ac)
        = objective_function objs cons (Except.ok ac)) := by
  refine ⟨rfl, ?_, ?_, ?_, ?_⟩
  · intro h
    obtain ⟨m2, h2⟩ := foldObj_error ac objs 0 h
    have htot : totalObjective ac objs = Except.error m2 := h2
    unfold objective_function
    rw [ok_bind_except, htot, error_bind_except]
  · intro h
    rcases htot : totalObjective ac objs with e1 | t
    · unfold objective_function
      rw [ok_bind_except, htot, error_bind_except]
    · obtain ⟨m2, h2⟩ := foldCon_error ac cons 0 h
      have hpen : totalPenalty ac cons = Except.error m2 := h2
      unfold objective_function
      rw [ok_bind_except, htot, ok_bind_except, hpen, error_bind_except]
  · intro objsP consP
    have h1 : totalObjective ac (objsP.map fun p => pureObjective p.1 p.2)
        = Except.ok (0 + (objsP.map fun p => p.1 * p.2).sum) := foldObj_pure ac objsP 0
    have h2 : totalPenalty ac (consP.map fun v => pureConstraint v)
        = Except.ok (0 + (consP.map fun v => 1000 * v ^ 2).sum) := foldCon_pure ac consP 0
    unfold objective_function
    rw [ok_bind_except, h1, ok_bind_except, h2, ok_bind_except]
    show (0 + (objsP.map fun p => p.1 * p.2).sum)
        + (0 + (consP.map fun v => 1000 * v ^ 2).sum) = _
    ring
  · intro h0
    have hpen := totalPenalty_cons_zero ac cons c0 h0
    unfold objective_function
    rw [ok_bind_except, hpen, ok_bind_except]

/-- C4 witness: the exception and zero-violation hypotheses instantiated
on concrete objective and constraint lists over unitAircraft. -/
theorem objective_function_penalty_spec_witness :
    objective_function [errObjective] [errConstraint] (Except.error "boom") = 1000000 ∧
    objective_function [errObjective] [errConstraint] (Except.ok unitAircraft) = 1000000 ∧
    objective_function [pureObjective 2 3] [errConstraint] (Except.ok unitAircraft) = 1000000 ∧
    objective_function [pureObjective 2 3] [pureConstraint 4] (Except.ok unitAircraft)
      = ([((2 : ℝ), (3 : ℝ))].map fun p => p.1 * p.2).sum
        + (([4] : List ℝ).map fun v => 1000 * v ^ 2).sum ∧
    objective_function [errObjective] (zeroConstraint :: [errConstraint]) (Except.ok unitAircraft)
      = objective_function [errObjective] [errConstraint] (Except.ok unitAircraft) := by
  have A := objective_function_penalty_spec [errObjective] [errConstraint]
    unitAircraft "boom" zeroConstraint
  have B := objective_function_penalty_spec [pureObjective 2 3] [errConstraint]
    unitAircraft "boom" zeroConstraint
  refine ⟨A.1, ?_, ?_, ?_, ?_⟩
  · exact A.2.1 ⟨errObjective, List.mem_cons_self _ _, "bad", rfl⟩
  · exact B.2.2.1 ⟨errConstraint, List.mem_cons_self _ _, "bad", rfl⟩
  · have h4 : objective_function ([((2 : ℝ), (3 : ℝ))].map fun p => pureObjective p.1 p.2)
        (([4] : List ℝ).map fun v => pureConstraint v) (Except.ok unitAircraft)
        = ([((2 : ℝ), (3 : ℝ))].map fun p => p.1 * p.2).sum
          + (([4] : List ℝ).map fun v => 1000 * v ^ 2).sum :=
      A.2.2.2.1 [((2 : ℝ), (3 : ℝ))] ([4] : List ℝ)
    simpa using h4
  · exact A.2.2.2.2 rfl

/-- One scan step never decreases the running best L/D. -/
lemma aoaStep_fst_le (ac : Aircraft) (s : ℝ × ℝ) (a : ℝ) :
    s.1 ≤ (aoaStep ac s a).1 := by
  unfold aoaStep
  split
  · exact le_of_lt (by assumption)
  · exact le_refl _

/-- The scan fold never decreases the running best L/D. -/
lemma foldl_aoaStep_fst_mono (ac : Aircraft) :
    ∀ (l : List ℝ) (s : ℝ × ℝ), s.1 ≤ (l.foldl (aoaStep ac) s).1 := by
  intro l
  induction l with
  | nil =>
    intro s
    exact le_refl _
  | cons b t ih =>
    intro s
    exact le_trans (aoaStep_fst_le ac s b) (ih (aoaStep ac s b))

/-- The final best L/D of the scan dominates the L/D of every sampled
angle. -/
lemma foldl_aoaStep_fst_ge (ac : Aircraft) :
    ∀ (l : List ℝ) (s : ℝ × ℝ) (a : ℝ), a ∈ l →
      calculate_lift_drag_ratio ac a ≤ (l.foldl (aoaStep ac) s).1 := by
  intro l
  induction l with
  | nil =>
    intro s a ha
    exact absurd ha (List.not_mem_nil a)
  | cons b t ih =>
    intro s a ha
    rcases List.mem_cons.1 ha with rfl | hat
    · have h1 : calculate_lift_drag_ratio ac a ≤ (aoaStep ac s a).1 := by
        unfold aoaStep
        split
        · exact le_refl _
        · exact le_of_not_lt (by assumption)
      exact le_trans h1 (foldl_aoaStep_fst_mono ac t (aoaStep ac s a))
    · exact ih (aoaStep ac s b) a hat

/-- The scan fold either records the L/D of its recorded best angle, or
never updated its initial state. -/
lemma foldl_aoaStep_invariant (ac : Aircraft) :
    ∀ (l : List ℝ) (s : ℝ × ℝ),
      (l.foldl (aoaStep ac) s).1
        = calculate_lift_drag_ratio ac (l.foldl (aoaStep ac) s).2
      ∨ l.foldl (aoaStep ac) s = s := by
  intro l
  induction l with
  | nil =>
    intro s
    right
    rfl
  | cons b t ih =>
    intro s
    rcases ih (aoaStep ac s b) with h | h
    · left
      simpa only [List.foldl_cons] using h
    · rw [List.foldl_cons, h]
      unfold aoaStep
      split
      · left
        rfl
      · right
        rfl

/-- If some scanned angle has strictly positive L/D, so does the angle
returned by the scan. -/
lemma optimal_ld_pos (ac : Aircraft)
    (h : ∃ a ∈ linspace (-5) 20 100, 0 < calculate_lift_drag_ratio ac a) :
    0 < calculate_lift_drag_ratio ac (find_optimal_angle_of_attack ac) := by
  obtain ⟨a, ha, hpos⟩ := h
  have hge := foldl_aoaStep_fst_ge ac (linspace (-5) 20 100) (0, 0) a ha
  have h1 : 0 < ((linspace (-5) 20 100).foldl (aoaStep ac) (0, 0)).1 :=
    lt_of_lt_of_le hpos hge
  rcases foldl_aoaStep_invariant ac (linspace (-5) 20 100) (0, 0) with h2 | h2
  · unfold find_optimal_angle_of_attack
    rw [← h2]
    exact h1
  · rw [h2] at h1
    norm_num at h1

/-- If some scanned angle has strictly positive L/D, the L/D value that
calculate_range recomputes at the scanned optimum is strictly positive. -/
lemma cruiseLD_pos (ac : Aircraft)
    (h : ∃ a ∈ linspace (-5) 20 100, 0 < calculate_lift_drag_ratio ac a) :
    0 < cruiseLD ac := by
  have hld := optimal_ld_pos ac h
  simp only [calculate_lift_drag_ratio] at hld
  simp only [cruiseLD]
  by_cases hcd : 0 < calculate_drag_coefficient ac
      (calculate_lift_coefficient ac (find_optimal_angle_of_attack ac))
  · rw [if_pos hcd] at hld
    exact hld
  · rw [if_neg hcd] at hld
    norm_num at hld

/-- C7 (amended): for positive cruise speed, positive specific fuel
consumption and positive recomputed cruise L/D, calculate_range is
strictly increasing in fuel weight on 0 <= fuel < max_takeoff_weight.
(At cruise_speed = 0 the range is identically 0, so the unconditional
claim fails.) -/
theorem calculate_range_fuel_monotone (ac : Aircraft) (alt speed sfc f1 f2 : ℝ)
    (hld : 0 < cruiseLD ac) (hs : 0 < speed) (hc : 0 < sfc)
    (h0 : 0 ≤ f1) (h12 : f1 < f2) (h2 : f2 < ac.mass.max_takeoff_weight) :
    calculate_range ac alt speed f1 sfc < calculate_range ac alt speed f2 sfc := by
  have hW : 0 < ac.mass.max_takeoff_weight := lt_of_le_of_lt h0 (lt_trans h12 h2)
  have hWpos : 0 < ac.mass.max_takeoff_weight * 9.81 := mul_pos hW (by norm_num)
  have hWf2 : 0 < ac.mass.max_takeoff_weight * 9.81 - f2 * 9.81 := by nlinarith
  have hWf1 : 0 < ac.mass.max_takeoff_weight * 9.81 - f1 * 9.81 := by nlinarith
  have hlt : ac.mass.max_takeoff_weight * 9.81 - f2 * 9.81
      < ac.mass.max_takeoff_weight * 9.81 - f1 * 9.81 := by nlinarith
  have hdivlt : ac.mass.max_takeoff_weight * 9.81 / (ac.mass.max_takeoff_weight * 9.81 - f1 * 9.81)
      < ac.mass.max_takeoff_weight * 9.81 / (ac.mass.max_takeoff_weight * 9.81 - f2 * 9.81) :=
    div_lt_div_of_pos_left hWpos hWf2 hlt
  have hlog : Real.log (ac.mass.max_takeoff_weight * 9.81 / (ac.mass.max_takeoff_weight * 9.81 - f1 * 9.81))
      < Real.log (ac.mass.max_takeoff_weight * 9.81 / (ac.mass.max_takeoff_weight * 9.81 - f2 * 9.81)) :=
    Real.log_lt_log (div_pos hWpos hWf1) hdivlt
  have hcoef : 0 < speed / sfc * cruiseLD ac := mul_pos (div_pos hs hc) hld
  simp only [calculate_range]
  have hmul := mul_lt_mul_of_pos_left hlog hcoef
  linarith

/-- The sampled angle 20 degrees is the last point of the scan grid. -/
lemma twenty_mem_linspace : (20 : ℝ) ∈ linspace (-5) 20 100 := by
  unfold linspace
  refine List.mem_map.2 ⟨99, ?_, ?_⟩
  · exact List.mem_range.2 (by norm_num)
  · push_cast
    norm_num

/-- On the unit-coefficient aircraft, the L/D ratio at 20 degrees is
strictly positive. -/
lemma unit_ld20_pos : 0 < calculate_lift_drag_ratio unitAircraft 20 := by
  have hpi9 : Real.pi < 3.15 := Real.pi_lt_d2
  have hpip : (0 : ℝ) < Real.pi := Real.pi_pos
  have hcl : calculate_lift_coefficient unitAircraft 20 = 20 * Real.pi / 180 := by
    simp only [calculate_lift_coefficient, radians, unitAircraft]
    rw [min_eq_left (by nlinarith)]
    ring
  have hcd : 0 < calculate_drag_coefficient unitAircraft
      (calculate_lift_coefficient unitAircraft 20) := by
    simp only [calculate_drag_coefficient, unitAircraft, hcl]
    nlinarith
  simp only [calculate_lift_drag_ratio]
  rw [if_pos hcd, hcl]
  have h1 : (0 : ℝ) < 20 * Real.pi / 180 := by positivity
  have h2 : 0 < calculate_drag_coefficient unitAircraft (20 * Real.pi / 180) := by
    rw [← hcl]
    exact hcd
  exact div_pos h1 h2

/-- The recomputed cruise L/D of the unit-coefficient aircraft is
strictly positive. -/
lemma cruiseLD_unit_pos : 0 < cruiseLD unitAircraft :=
  cruiseLD_pos unitAircraft ⟨20, twenty_mem_linspace, unit_ld20_pos⟩

/-- C7 witness: the monotonicity hypotheses instantiated on the concrete
unit-coefficient aircraft (MTOW 10000) with fuel weights 100 < 200 at
cruise speed 1 and sfc 1. -/
theorem calculate_range_fuel_monotone_witness :
    0 < cruiseLD unitAircraft ∧ (0 : ℝ) ≤ 100 ∧ (100 : ℝ) < 200 ∧
    (200 : ℝ) < unitAircraft.mass.max_takeoff_weight ∧
    calculate_range unitAircraft 0 1 100 1 < calculate_range unitAircraft 0 1 200 1 := by
  have h := cruiseLD_unit_pos
  refine ⟨h, by norm_num, by norm_num, ?_, ?_⟩
  · show (200 : ℝ) < 10000
    norm_num
  · exact calculate_range_fuel_monotone unitAircraft 0 1 1 100 200 h (by norm_num)
      (by norm_num) (by norm_num) (by norm_num) (by show (200 : ℝ) < 10000; norm_num)

/-- C7 counterexample: at cruise speed 0 the Breguet range is identically
0, so calculate_range is not strictly increasing in fuel weight on the
claimed domain 0 <= fuel < max_takeoff_weight for every cruise speed:
fuel weights 100 < 200 (both below MTOW = 10000) give equal range. -/
theorem calculate_range_not_monotone_at_zero_speed :
    calculate_range unitAircraft 0 0 100 0.00005
      = calculate_range unitAircraft 0 0 200 0.00005 ∧
    (0 : ℝ) ≤ 100 ∧ (100 : ℝ) < 200 ∧
    (200 : ℝ) < unitAircraft.mass.max_takeoff_weight := by
  refine ⟨?_, by norm_num, by norm_num, ?_⟩
  · simp only [calculate_range, zero_div, zero_mul]
  · show (200 : ℝ) < 10000
    norm_num

/-- Updating one geometry entry by key does not change the value read at
any other key. -/
lemma fieldVal_setGeom_ne (g : AircraftGeometry) (m : AircraftMass)
    (key other : String) (v : ℝ) (hkey : key ∈ geomKeys) (h : other ≠ key) :
    fieldVal (setGeom g key v) m other = fieldVal g m other := by
  fin_cases hkey <;> (unfold fieldVal; split <;> simp_all [setGeom])

/-- Updating one mass entry by key does not change the value read at any
other key. -/
lemma fieldVal_setMass_ne (g : AircraftGeometry) (m : AircraftMass)
    (key other : String) (v : ℝ) (hkey : key ∈ massKeys) (h : other ≠ key) :
    fieldVal g (setMass m key v) other = fieldVal g m other := by
  fin_cases hkey <;> (unfold fieldVal; split <;> simp_all [setMass])

/-- Updating a geometry entry by key sets the value read at that key. -/
lemma fieldVal_setGeom_self (g : AircraftGeometry) (m : AircraftMass)
    (key : String) (v : ℝ) (hkey : key ∈ geomKeys) :
    fieldVal (setGeom g key v) m key = v := by
  fin_cases hkey <;> rfl

/-- Updating a mass entry by key sets the value read at that key. -/
lemma fieldVal_setMass_self (g : AircraftGeometry) (m : AircraftMass)
    (key : String) (v : ℝ) (hkey : key ∈ massKeys) :
    fieldVal g (setMass m key v) key = v := by
  fin_cases hkey <;> rfl

/-- The variable-mapping loop does not change the value read at a key that
none of the design variables names. -/
lemma foldl_updateVar_frame :
    ∀ (l : List (String × ℝ)) (gm : AircraftGeometry × AircraftMass) (k : String),
      (∀ p ∈ l, p.1 ≠ k) →
      fieldVal (l.foldl updateVar gm).1 (l.foldl updateVar gm).2 k
        = fieldVal gm.1 gm.2 k := by
  intro l
  induction l with
  | nil =>
    intro gm k h
    rfl
  | cons b t ih =>
    intro gm k h
    rw [List.foldl_cons]
    have hb : k ≠ b.1 := Ne.symm (h b (List.mem_cons_self b t))
    have ht : ∀ p ∈ t, p.1 ≠ k := fun p hp => h p (List.mem_cons_of_mem b hp)
    rw [ih (updateVar gm b) k ht]
    unfold updateVar
    split
    · exact fieldVal_setGeom_ne gm.1 gm.2 b.1 k b.2 (by assumption) hb
    · split
      · exact fieldVal_setMass_ne gm.1 gm.2 b.1 k b.2 (by assumption) hb
      · rfl

/-- The variable-mapping loop writes the candidate value at the key of
each design variable (assuming the variable names are distinct, as Python
dictionary keys are). -/
lemma foldl_updateVar_update :
    ∀ (l : List (String × ℝ)) (gm : AircraftGeometry × AircraftMass) (k : String) (v : ℝ),
      (k, v) ∈ l → (l.map Prod.fst).Nodup → (k ∈ geomKeys ∨ k ∈ massKeys) →
      fieldVal (l.foldl updateVar gm).1 (l.foldl updateVar gm).2 k = v := by
  intro l
  induction l with
  | nil =>
    intro gm k v hmem _ _
    exact absurd hmem (List.not_mem_nil _)
  | cons b t ih =>
    intro gm k v hmem hnd hk
    rw [List.foldl_cons]
    have hnd2 : (b.1 :: t.map Prod.fst).Nodup := by simpa using hnd
    rcases List.mem_cons.1 hmem with heq | hmt
    · have hb1 : b.1 = k := by rw [← heq]
      have hknot : ∀ p ∈ t, p.1 ≠ k := by
        intro p hp hpk
        exact (List.nodup_cons.1 hnd2).1 (hb1 ▸ hpk ▸ List.mem_map_of_mem Prod.fst hp)
      rw [foldl_updateVar_frame t (updateVar gm b) k hknot]
      rw [← heq]
      unfold updateVar
      split
      · exact fieldVal_setGeom_self gm.1 gm.2 k v (by simp_all)
      · split
        · exact fieldVal_setMass_self gm.1 gm.2 k v (by simp_all)
        · rcases hk with h | h <;> simp_all
    · exact ih (updateVar gm b) k v hmt (List.nodup_cons.1 hnd2).2 hk

/-- The membership test of the consistency step is on geom_dict's own
(fixed) key list, so it always succeeds: the optimizer's geometry output
is the folded geometry with aspect_ratio and wing_chord unconditionally
re-derived. -/
lemma create_geometry_eq (vars : List String) (x : List ℝ) (base : Aircraft) :
    (create_aircraft_from_variables vars x base).geometry
      = { ((vars.zip x).foldl updateVar (base.geometry, base.mass)).1 with
          aspect_ratio :=
            ((vars.zip x).foldl updateVar (base.geometry, base.mass)).1.wing_span ^ 2
              / ((vars.zip x).foldl updateVar (base.geometry, base.mass)).1.wing_area,
          wing_chord :=
            ((vars.zip x).foldl updateVar (base.geometry, base.mass)).1.wing_area
              / ((vars.zip x).foldl updateVar (base.geometry, base.mass)).1.wing_span } := by
  simp only [create_aircraft_from_variables, mkAircraft]
  rw [if_pos ⟨by decide, by decide⟩]

/-- The optimizer's mass output is exactly the folded mass dictionary. -/
lemma create_mass_eq (vars : List String) (x : List ℝ) (base : Aircraft) :
    (create_aircraft_from_variables vars x base).mass
      = ((vars.zip x).foldl updateVar (base.geometry, base.mass)).2 := by
  simp only [create_aircraft_from_variables, mkAircraft]

/-- Reading any key other than aspect_ratio and wing_chord is unaffected
by the consistency re-derivation. -/
lemma fieldVal_rederive_ne (g : AircraftGeometry) (m : AircraftMass) (k : String)
    (a c : ℝ) (h1 : k ≠ "aspect_ratio") (h2 : k ≠ "wing_chord") :
    fieldVal { g with aspect_ratio := a, wing_chord := c } m k = fieldVal g m k := by
  unfold fieldVal
  split <;> simp_all

/-- C2 (amended): create_aircraft_from_variables overwrites the named
design variables with the candidate values and leaves every other
geometry and mass field equal to the base aircraft's, with the exception
of aspect_ratio and wing_chord, which are ALWAYS re-derived from the
(possibly updated) wing_span and wing_area — the membership condition in
the source tests geom_dict itself, which always contains both keys, not
the design-variable set. -/
theorem create_aircraft_variable_mapping (base : Aircraft) (vars : List String) (x : List ℝ) :
    ((create_aircraft_from_variables vars x base).geometry.aspect_ratio
      = (create_aircraft_from_variables vars x base).geometry.wing_span ^ 2
        / (create_aircraft_from_variables vars x base).geometry.wing_area) ∧
    ((create_aircraft_from_variables vars x base).geometry.wing_chord
      = (create_aircraft_from_variables vars x base).geometry.wing_area
        / (create_aircraft_from_variables vars x base).geometry.wing_span) ∧
    (∀ k, k ∉ vars → k ≠ "aspect_ratio" → k ≠ "wing_chord" →
      fieldVal (create_aircraft_from_variables vars x base).geometry
        (create_aircraft_from_variables vars x base).mass k
      = fieldVal base.geometry base.mass k) ∧
    (∀ k v, (k, v) ∈ vars.zip x → ((vars.zip x).map Prod.fst).Nodup →
      (k ∈ geomKeys ∨ k ∈ massKeys) → k ≠ "aspect_ratio" → k ≠ "wing_chord" →
      fieldVal (create_aircraft_from_variables vars x base).geometry
        (create_aircraft_from_variables vars x base).mass k = v) := by
  refine ⟨?_, ?_, ?_, ?_⟩
  · rw [create_geometry_eq]
  · rw [create_geometry_eq]
  · intro k hk h1 h2
    rw [create_geometry_eq, create_mass_eq, fieldVal_rederive_ne _ _ _ _ _ h1 h2]
    apply foldl_updateVar_frame
    intro p hp hpk
    exact hk (hpk ▸ (List.of_mem_zip hp).1)
  · intro k v hmem hnd hk h1 h2
    rw [create_geometry_eq, create_mass_eq, fieldVal_rederive_ne _ _ _ _ _ h1 h2]
    exact foldl_updateVar_update (vars.zip x) (base.geometry, base.mass) k v hmem hnd hk

/-- Folding the single design variable sweep_angle = 1 updates only the
sweep_angle entry of the geometry dictionary. -/
lemma fold_sweep :
    (["sweep_angle"].zip ([1] : List ℝ)).foldl updateVar (baseSeven.geometry, baseSeven.mass)
      = ({ baseSeven.geometry with sweep_angle := 1 }, baseSeven.mass) := by
  show updateVar (baseSeven.geometry, baseSeven.mass) ("sweep_angle", 1) = _
  unfold updateVar
  rw [if_pos (show ("sweep_angle", (1 : ℝ)).1 ∈ geomKeys by decide)]
  rfl

/-- C2 counterexample: with the single design variable sweep_angle (so
neither wing_span nor wing_area nor aspect_ratio is a design variable),
the optimizer still overwrites aspect_ratio: the base aircraft stores
aspect_ratio 7 while span^2/area = 10^2/20 = 5, and the mapped aircraft's
aspect_ratio is 5, not 7. -/
theorem create_aircraft_rederives_unconditionally :
    (create_aircraft_from_variables ["sweep_angle"] [1] baseSeven).geometry.aspect_ratio
      ≠ baseSeven.geometry.aspect_ratio ∧
    "wing_span" ∉ (["sweep_angle"] : List String) ∧
    "wing_area" ∉ (["sweep_angle"] : List String) ∧
    "aspect_ratio" ∉ (["sweep_angle"] : List String) := by
  refine ⟨?_, by decide, by decide, by decide⟩
  rw [create_geometry_eq, fold_sweep]
  show (10 : ℝ) ^ 2 / 20 ≠ 7
  norm_num

/-- C2 witness: the frame and update conclusions instantiated on the
concrete base aircraft with design variable list ["sweep_angle"] and
candidate vector [1]. -/
theorem create_aircraft_variable_mapping_witness :
    fieldVal (create_aircraft_from_variables ["sweep_angle"] [1] baseSeven).geometry
      (create_aircraft_from_variables ["sweep_angle"] [1] baseSeven).mass "wing_span"
      = fieldVal baseSeven.geometry baseSeven.mass "wing_span" ∧
    fieldVal (create_aircraft_from_variables ["sweep_angle"] [1] baseSeven).geometry
      (create_aircraft_from_variables ["sweep_angle"] [1] baseSeven).mass "sweep_angle"
      = 1 := by
  have A := create_aircraft_variable_mapping baseSeven ["sweep_angle"] [1]
  refine ⟨A.2.2.1 "wing_span" (by decide) (by decide) (by decide), ?_⟩
  exact A.2.2.2 "sweep_angle" 1 (List.mem_singleton.2 rfl) (by simp)
    (Or.inl (by decide)) (by decide) (by decide)

/-- C3 witness: a concrete optimizer with no design variables aborts with
the error, and a concrete optimizer with one design variable returns a
result record. -/
theorem optimize_requires_design_variables_witness :
    emptyOptimizer.optimize unitAircraft constSearch
      = Except.error "No design variables specified" ∧
    ∃ out, oneVarOptimizer.optimize unitAircraft constSearch = Except.ok out := by
  have A := optimize_requires_design_variables emptyOptimizer unitAircraft constSearch
  have B := optimize_requires_design_variables oneVarOptimizer unitAircraft constSearch
  exact ⟨A.1.mpr rfl, B.2.mpr (by simp [oneVarOptimizer])⟩
